import Mathlib

/-!
Shallow embedding of `src/ngraph/ops/max_pool.cpp` (the MaxPool operator
node of the ngraph computational-graph compiler): the validating
constructor, the default-stride convenience overload, the structural
equality check `is_functionally_identical`, and the adjoint (gradient)
sub-graph construction `generate_adjoints`.

Thrown `ngraph_error`s become `Except.error` carrying the exact message
string of the source; a `std::out_of_range` thrown by a bounds-checked
`std::vector::at` becomes `Except.error vectorAtMsg`.
-/

namespace ngraph

/-- Error message for an input of rank below 3 (max_pool.cpp line 40 and,
identically, in `default_strides`). -/
def rankMsg : String :=
  "Max pool image batch input must have rank of at least 3 (one batch axis, one channel axis, at least one image dimension)."

/-- Error message for a zero batch size. -/
def batchSizeMsg : String := "Max pool image batch size is zero."

/-- Error message for a zero channel count. -/
def channelCountMsg : String := "Max pool requires at least one image depth channel."

/-- Error message for a window-shape rank mismatch. -/
def windowRankMsg : String :=
  "Max pool window shape rank does not match number of image dimensions."

/-- Error message for a stride rank mismatch. -/
def strideRankMsg : String :=
  "Max pool window movement stride rank does not match number of image dimensions."

/-- Error message for a zero input image dimension. -/
def imageDimZeroMsg : String := "Max pool input image dimension is zero."

/-- Error message for a zero-length window axis. -/
def windowZeroMsg : String := "Max pool window shape has a zero-length axis."

/-- Error message for a window larger than the image. -/
def windowTooBigMsg : String := "Max pool window shape is larger than the image."

/-- Error message for a zero window movement stride. -/
def strideZeroMsg : String := "Max pool window axis movement stride is zero."

/-- Error message for an argument without exactly one output (`default_strides`). -/
def oneOutputMsg : String := "Max pool image batch argument must have exactly one output"

/-- Error raised by a bounds-checked `std::vector::at` access out of range
(a `std::out_of_range`, not an `ngraph_error`). -/
def vectorAtMsg : String := "vector access out of range"

/-- Modelled from the spec (the helper lives in `ngraph/util.hpp`, which is
not part of this fragment): integer ceiling division,
`ceil_div(a,b) = floor((a + b - 1) / b)` for positive `a`, `b` (glossary). -/
def ceil_div (a b : Nat) : Nat := (a + b - 1) / b

/-- Modelled from the spec (§6): a graph node of the external node
abstraction, reduced to what this fragment reads from it — an identity and
a list of outputs, each carrying an element type (abstract tag) and a
shape. -/
structure Node where
  id : Nat
  outputs : List (Nat × List Nat)
deriving DecidableEq, Repr

/-- Shape of a node's first output (`get_outputs().at(0).get_shape()` /
the shape of the tensor view the node produces). -/
def Node.shape (n : Node) : List Nat := (n.outputs.getD 0 (0, [])).2

/-- Element type of a node's first output (`get_element_type()`). -/
def Node.element_type (n : Node) : Nat := (n.outputs.getD 0 (0, [])).1

/-- The MaxPool node record: the stored input node, the element type
recorded for the output, the constructor parameters
`m_window_shape`/`m_window_movement_strides`, the derived fields computed
during construction, and the recorded output shape
(`set_value_type_checked`). -/
structure MaxPool where
  arg : Node
  element_type : Nat
  m_window_shape : List Nat
  m_window_movement_strides : List Nat
  m_batch_size : Nat
  m_channel_count : Nat
  m_image_dimension_count : Nat
  m_input_image_shape : List Nat
  m_output_image_shape : List Nat
  output_shape : List Nat
deriving DecidableEq, Repr

/-- The per-axis loop extracting `m_input_image_shape` from
`arg_shape[2..]`, throwing on the first zero dimension (max_pool.cpp lines
76-85). -/
def extractImage : List Nat → Except String (List Nat)
  | [] => Except.ok []
  | d :: ds =>
    if d = 0 then Except.error imageDimZeroMsg
    else (extractImage ds).map (fun r => d :: r)

/-- The per-axis loop checking every window dimension is nonzero
(max_pool.cpp lines 87-96). -/
def checkWindowNonzero : List Nat → Except String Unit
  | [] => Except.ok ()
  | w :: ws =>
    if w = 0 then Except.error windowZeroMsg else checkWindowNonzero ws

/-- The per-axis loop checking the window fits within the image, over the
zipped (window, image-dimension) pairs (max_pool.cpp lines 98-107). -/
def checkWindowFits : List (Nat × Nat) → Except String Unit
  | [] => Except.ok ()
  | p :: rest =>
    if p.2 < p.1 then Except.error windowTooBigMsg else checkWindowFits rest

/-- The per-axis loop computing `m_output_image_shape`, checking each
stride is nonzero just before using it (max_pool.cpp lines 109-120). -/
def computeOutputImage : List Nat → List Nat → List Nat → Except String (List Nat)
  | d :: ds, w :: ws, s :: ss =>
    if s = 0 then Except.error strideZeroMsg
    else (computeOutputImage ds ws ss).map (fun r => ceil_div (d - w + 1) s :: r)
  | _, _, _ => Except.ok []

/-- Body of the full (three-argument) constructor `op::MaxPool::MaxPool`
(max_pool.cpp lines 26-129), taking the element type and shape that the
base class exposes for input 0, plus the stored window shape and strides. -/
def constructCore (arg : Node) (etype : Nat) (arg_shape ws ss : List Nat) :
    Except String MaxPool :=
  if arg_shape.length < 3 then Except.error rankMsg
  else
    let batch_size := arg_shape.getD 0 0
    if batch_size = 0 then Except.error batchSizeMsg
    else
      let channel_count := arg_shape.getD 1 0
      if channel_count = 0 then Except.error channelCountMsg
      else
        let idc := arg_shape.length - 2
        if ws.length ≠ idc then Except.error windowRankMsg
        else if ss.length ≠ idc then Except.error strideRankMsg
        else do
          let input_image ← extractImage (arg_shape.drop 2)
          checkWindowNonzero ws
          checkWindowFits (ws.zip input_image)
          let output_image ← computeOutputImage input_image ws ss
          Except.ok
            { arg := arg
              element_type := etype
              m_window_shape := ws
              m_window_movement_strides := ss
              m_batch_size := batch_size
              m_channel_count := channel_count
              m_image_dimension_count := idc
              m_input_image_shape := input_image
              m_output_image_shape := output_image
              output_shape := batch_size :: channel_count :: output_image }

/-- The three-argument constructor `MaxPool(arg, window_shape,
window_movement_strides)`: the base class wires input 0 to `arg`'s first
output, whose shape and element type the body then reads; an argument with
no outputs makes the `at(0)` access fail out of range. -/
def MaxPool.construct (arg : Node) (ws ss : List Nat) : Except String MaxPool :=
  match arg.outputs with
  | [] => Except.error vectorAtMsg
  | (etype, arg_shape) :: _ => constructCore arg etype arg_shape ws ss

/-- The helper `default_strides` (max_pool.cpp lines 132-153): requires
exactly one output, re-checks rank ≥ 3 with the constructor's own message,
and returns a stride of 1 per spatial axis. -/
def default_strides (arg : Node) : Except String (List Nat) :=
  if arg.outputs.length ≠ 1 then Except.error oneOutputMsg
  else
    let arg_shape := (arg.outputs.getD 0 (0, [])).2
    if arg_shape.length < 3 then Except.error rankMsg
    else Except.ok (List.replicate (arg_shape.length - 2) 1)

/-- The two-argument convenience constructor `MaxPool(arg, window_shape)`,
delegating to the full constructor with `default_strides(arg)`. -/
def MaxPool.constructDefault (arg : Node) (ws : List Nat) : Except String MaxPool := do
  let ss ← default_strides arg
  MaxPool.construct arg ws ss

/-- Modelled from the spec (§4.2): the generic node-level identity check
`Node::test_identical` of the external graph-node base — same operator
kind (both operands are MaxPool nodes here) and same structural identity
of inputs (the single input node). -/
def MaxPool.test_identical (self other : MaxPool) : Bool :=
  decide (self.arg = other.arg)

/-- `op::MaxPool::is_functionally_identical` (max_pool.cpp lines 155-174):
the generic identity check, then conjunction of the seven field
comparisons. -/
def MaxPool.is_functionally_identical (self other : MaxPool) : Bool :=
  if self.test_identical other then
    decide (self.m_window_shape = other.m_window_shape)
    && decide (self.m_window_movement_strides = other.m_window_movement_strides)
    && decide (self.m_channel_count = other.m_channel_count)
    && decide (self.m_input_image_shape = other.m_input_image_shape)
    && decide (self.m_output_image_shape = other.m_output_image_shape)
    && decide (self.m_batch_size = other.m_batch_size)
    && decide (self.m_image_dimension_count = other.m_image_dimension_count)
  else false

/-- Scalar expressions over the two parameters of a two-input sub-function,
built from the external `Greater` and `Add` node constructors. -/
inductive ScalarExpr where
  | paramA : ScalarExpr
  | paramB : ScalarExpr
  | greater : ScalarExpr → ScalarExpr → ScalarExpr
  | add : ScalarExpr → ScalarExpr → ScalarExpr
deriving DecidableEq, Repr

/-- Modelled from the spec (§6): the external sub-graph/function wrapper
packaging a body over two parameter nodes, each with an element type and a
shape. -/
structure SubFunction where
  a_etype : Nat
  a_shape : List Nat
  b_etype : Nat
  b_shape : List Nat
  body : ScalarExpr
deriving DecidableEq, Repr

/-- Modelled from the spec (§6): the external `Constant` node constructor
`constant(type, shape, value)`. -/
structure ConstantDesc where
  etype : Nat
  shape : List Nat
  values : List String
deriving DecidableEq, Repr

/-- Modelled from the spec (§6): the external select-and-scatter node
`select_and_scatter(operand, source, init_value, select_fn, scatter_fn,
window_shape, window_strides)`. -/
structure SelectAndScatterDesc where
  operand : Node
  source : Node
  init_value : ConstantDesc
  sel_f : SubFunction
  scatter_f : SubFunction
  window_shape : List Nat
  window_strides : List Nat
deriving DecidableEq, Repr

/-- Modelled from the spec (§8): the select-and-scatter collaborator (not
part of this fragment) declares its output shape equal to its operand
node's shape. -/
def SelectAndScatterDesc.output_shape (s : SelectAndScatterDesc) : List Nat :=
  s.operand.shape

/-- One `adjoints.add_delta(target, contribution)` call recorded by the
adjoints accumulator. -/
structure AdjointEntry where
  target : Node
  contribution : SelectAndScatterDesc
deriving DecidableEq, Repr

/-- Bounds-checked element access, modelling `std::vector::at`. -/
def listAt (l : List Nat) (i : Nat) : Except String Nat :=
  match l.get? i with
  | some x => Except.ok x
  | none => Except.error vectorAtMsg

/-- `op::MaxPool::generate_adjoints` (max_pool.cpp lines 176-211): builds
the select function `a > b`, the scatter function `a + b`, a zero scalar
constant, the window/stride sequences `{1, 1, at(0), at(1)}`, constructs
the select-and-scatter node over the operand and the delta, and registers
it with `add_delta`; the returned list is the sequence of `add_delta`
calls made. -/
def MaxPool.generate_adjoints (self : MaxPool) (delta : Node) :
    Except String (List AdjointEntry) := do
  let etype := delta.element_type
  let sel_f : SubFunction :=
    { a_etype := etype, a_shape := [], b_etype := etype, b_shape := []
      body := ScalarExpr.greater ScalarExpr.paramA ScalarExpr.paramB }
  let scatter_f : SubFunction :=
    { a_etype := etype, a_shape := [], b_etype := etype, b_shape := []
      body := ScalarExpr.add ScalarExpr.paramA ScalarExpr.paramB }
  let operand := self.arg
  let init_value : ConstantDesc := { etype := etype, shape := [], values := ["0"] }
  let s0 ← listAt self.m_window_movement_strides 0
  let s1 ← listAt self.m_window_movement_strides 1
  let strides : List Nat := [1, 1, s0, s1]
  let w0 ← listAt self.m_window_shape 0
  let w1 ← listAt self.m_window_shape 1
  let shape : List Nat := [1, 1, w0, w1]
  let sas : SelectAndScatterDesc :=
    { operand := operand, source := delta, init_value := init_value
      sel_f := sel_f, scatter_f := scatter_f
      window_shape := shape, window_strides := strides }
  Except.ok [⟨operand, sas⟩]

/-- Specification-side predicate: all structural invariants of §3 hold for
the given input shape, window shape and strides. -/
def Valid (sh ws ss : List Nat) : Prop :=
  3 ≤ sh.length ∧ sh.getD 0 0 ≠ 0 ∧ sh.getD 1 0 ≠ 0 ∧
  ws.length = sh.length - 2 ∧ ss.length = sh.length - 2 ∧
  (∀ d ∈ sh.drop 2, d ≠ 0) ∧ (∀ w ∈ ws, w ≠ 0) ∧
  (∀ p ∈ ws.zip (sh.drop 2), p.1 ≤ p.2) ∧ (∀ s ∈ ss, s ≠ 0)

instance (sh ws ss : List Nat) : Decidable (Valid sh ws ss) := by
  unfold Valid; infer_instance

/-- Specification-side error selection: the message of the first violated
invariant in the fixed validation order of §4.1. -/
def firstViolation (sh ws ss : List Nat) : Option String :=
  if sh.length < 3 then some rankMsg
  else if sh.getD 0 0 = 0 then some batchSizeMsg
  else if sh.getD 1 0 = 0 then some channelCountMsg
  else if ws.length ≠ sh.length - 2 then some windowRankMsg
  else if ss.length ≠ sh.length - 2 then some strideRankMsg
  else if (sh.drop 2).any (fun d => d = 0) then some imageDimZeroMsg
  else if ws.any (fun w => w = 0) then some windowZeroMsg
  else if (ws.zip (sh.drop 2)).any (fun p => p.2 < p.1) then some windowTooBigMsg
  else if ss.any (fun s => s = 0) then some strideZeroMsg
  else none

/-- Specification-side output image dimensions: pointwise
`ceil_div(d - w + 1, s)` over the spatial axes. -/
def outputDims : List Nat → List Nat → List Nat → List Nat
  | d :: ds, w :: ws, s :: ss => ceil_div (d - w + 1) s :: outputDims ds ws ss
  | _, _, _ => []

/-- Specification-side statement that an error message is the one specific
to an invariant that the given parameters indeed violate. -/
def messageMatches (sh ws ss : List Nat) (m : String) : Prop :=
  (m = rankMsg ∧ sh.length < 3) ∨
  (m = batchSizeMsg ∧ sh.getD 0 0 = 0) ∨
  (m = channelCountMsg ∧ sh.getD 1 0 = 0) ∨
  (m = windowRankMsg ∧ ws.length ≠ sh.length - 2) ∨
  (m = strideRankMsg ∧ ss.length ≠ sh.length - 2) ∨
  (m = imageDimZeroMsg ∧ ∃ d ∈ sh.drop 2, d = 0) ∨
  (m = windowZeroMsg ∧ ∃ w ∈ ws, w = 0) ∨
  (m = windowTooBigMsg ∧ ∃ p ∈ ws.zip (sh.drop 2), p.2 < p.1) ∨
  (m = strideZeroMsg ∧ ∃ s ∈ ss, s = 0)

/-- Specification-side description of the node record the constructor
builds on success. -/
def builtPool (arg : Node) (et : Nat) (sh ws ss : List Nat) : MaxPool :=
  { arg := arg
    element_type := et
    m_window_shape := ws
    m_window_movement_strides := ss
    m_batch_size := sh.getD 0 0
    m_channel_count := sh.getD 1 0
    m_image_dimension_count := sh.length - 2
    m_input_image_shape := sh.drop 2
    m_output_image_shape := outputDims (sh.drop 2) ws ss
    output_shape := sh.getD 0 0 :: sh.getD 1 0 :: outputDims (sh.drop 2) ws ss }

theorem extractImage_ok : ∀ {l : List Nat}, (∀ d ∈ l, d ≠ 0) →
    extractImage l = Except.ok l := by
  intro l
  induction l with
  | nil => intro _; rfl
  | cons d ds ih =>
    intro h
    have hd : d ≠ 0 := h d (List.mem_cons_self _ _)
    have hrest := ih (fun x hx => h x (List.mem_cons_of_mem _ hx))
    simp [extractImage, hd, hrest, Except.map]

theorem extractImage_err : ∀ {l : List Nat}, (∃ d ∈ l, d = 0) →
    extractImage l = Except.error imageDimZeroMsg := by
  intro l
  induction l with
  | nil => rintro ⟨d, hd, _⟩; cases hd
  | cons d ds ih =>
    rintro ⟨x, hx, hx0⟩
    rcases List.mem_cons.mp hx with h | h
    · subst h
      simp [extractImage, hx0]
    · by_cases hd : d = 0
      · simp [extractImage, hd]
      · simp [extractImage, hd, ih ⟨x, h, hx0⟩, Except.map]

theorem checkWindowNonzero_ok : ∀ {l : List Nat}, (∀ w ∈ l, w ≠ 0) →
    checkWindowNonzero l = Except.ok () := by
  intro l
  induction l with
  | nil => intro _; rfl
  | cons w ws ih =>
    intro h
    have hw : w ≠ 0 := h w (List.mem_cons_self _ _)
    simp [checkWindowNonzero, hw, ih (fun x hx => h x (List.mem_cons_of_mem _ hx))]

theorem checkWindowNonzero_err : ∀ {l : List Nat}, (∃ w ∈ l, w = 0) →
    checkWindowNonzero l = Except.error windowZeroMsg := by
  intro l
  induction l with
  | nil => rintro ⟨w, hw, _⟩; cases hw
  | cons w ws ih =>
    rintro ⟨x, hx, hx0⟩
    rcases List.mem_cons.mp hx with h | h
    · subst h; simp [checkWindowNonzero, hx0]
    · by_cases hw : w = 0
      · simp [checkWindowNonzero, hw]
      · simp [checkWindowNonzero, hw, ih ⟨x, h, hx0⟩]

theorem checkWindowFits_ok : ∀ {l : List (Nat × Nat)}, (∀ p ∈ l, ¬ p.2 < p.1) →
    checkWindowFits l = Except.ok () := by
  intro l
  induction l with
  | nil => intro _; rfl
  | cons p ps ih =>
    intro h
    have hp : ¬ p.2 < p.1 := h p (List.mem_cons_self _ _)
    simp [checkWindowFits, hp, ih (fun x hx => h x (List.mem_cons_of_mem _ hx))]

theorem checkWindowFits_err : ∀ {l : List (Nat × Nat)}, (∃ p ∈ l, p.2 < p.1) →
    checkWindowFits l = Except.error windowTooBigMsg := by
  intro l
  induction l with
  | nil => rintro ⟨p, hp, _⟩; cases hp
  | cons p ps ih =>
    rintro ⟨x, hx, hx0⟩
    rcases List.mem_cons.mp hx with h | h
    · subst h; simp [checkWindowFits, hx0]
    · by_cases hp : p.2 < p.1
      · simp [checkWindowFits, hp]
      · simp [checkWindowFits, hp, ih ⟨x, h, hx0⟩]

theorem computeOutputImage_ok : ∀ (ds ws ss : List Nat), (∀ s ∈ ss, s ≠ 0) →
    computeOutputImage ds ws ss = Except.ok (outputDims ds ws ss) := by
  intro ds
  induction ds with
  | nil => intro ws ss _; cases ws <;> cases ss <;> rfl
  | cons d ds ih =>
    intro ws ss h
    cases ws with
    | nil => cases ss <;> rfl
    | cons w ws =>
      cases ss with
      | nil => rfl
      | cons s ss =>
        have hs : s ≠ 0 := h s (List.mem_cons_self _ _)
        simp [computeOutputImage, outputDims, hs,
          ih ws ss (fun x hx => h x (List.mem_cons_of_mem _ hx)), Except.map]

theorem computeOutputImage_err : ∀ (ds ws ss : List Nat),
    ds.length = ss.length → ws.length = ss.length → (∃ s ∈ ss, s = 0) →
    computeOutputImage ds ws ss = Except.error strideZeroMsg := by
  intro ds
  induction ds with
  | nil =>
    intro ws ss h1 _ hex
    rcases hex with ⟨s, hs, _⟩
    cases ss with
    | nil => cases hs
    | cons s0 ss => cases h1
  | cons d ds ih =>
    intro ws ss h1 h2 hex
    cases ss with
    | nil => rcases hex with ⟨s, hs, _⟩; cases hs
    | cons s0 ss =>
      cases ws with
      | nil => cases h2
      | cons w ws =>
        rcases hex with ⟨x, hx, hx0⟩
        rcases List.mem_cons.mp hx with h | h
        · subst h; simp [computeOutputImage, hx0]
        · by_cases hs0 : s0 = 0
          · simp [computeOutputImage, hs0]
          · have := ih ws ss (by simpa using h1) (by simpa using h2) ⟨x, h, hx0⟩
            simp [computeOutputImage, hs0, this, Except.map]

theorem except_bind_ok {ε : Type u} {α β : Type v} (a : α) (f : α → Except ε β) :
    (Except.ok (ε := ε) a >>= f) = f a := rfl

theorem except_bind_err {ε : Type u} {α β : Type v} (e : ε) (f : α → Except ε β) :
    (Except.error (α := α) e >>= f) = Except.error (α := β) e := rfl

theorem constructCore_eq (arg : Node) (et : Nat) (sh ws ss : List Nat) :
    constructCore arg et sh ws ss =
      Option.elim (firstViolation sh ws ss)
        (Except.ok (builtPool arg et sh ws ss)) Except.error := by
  simp only [constructCore, firstViolation]
  by_cases h1 : sh.length < 3
  · rw [if_pos h1, if_pos h1]; rfl
  rw [if_neg h1, if_neg h1]
  by_cases h2 : sh.getD 0 0 = 0
  · rw [if_pos h2, if_pos h2]; rfl
  rw [if_neg h2, if_neg h2]
  by_cases h3 : sh.getD 1 0 = 0
  · rw [if_pos h3, if_pos h3]; rfl
  rw [if_neg h3, if_neg h3]
  by_cases h4 : ws.length ≠ sh.length - 2
  · rw [if_pos h4, if_pos h4]; rfl
  rw [if_neg h4, if_neg h4]
  by_cases h5 : ss.length ≠ sh.length - 2
  · rw [if_pos h5, if_pos h5]; rfl
  rw [if_neg h5, if_neg h5]
  by_cases h6 : ∃ d ∈ sh.drop 2, d = 0
  · have h6b : ((sh.drop 2).any fun d => decide (d = 0)) = true := by
      obtain ⟨d, hd, hd0⟩ := h6
      exact List.any_eq_true.mpr ⟨d, hd, decide_eq_true hd0⟩
    rw [extractImage_err h6, if_pos h6b]
    rfl
  have h6' : ∀ d ∈ sh.drop 2, d ≠ 0 := fun d hd hd0 => h6 ⟨d, hd, hd0⟩
  have h6b : ¬ (((sh.drop 2).any fun d => decide (d = 0)) = true) := by
    intro hc
    obtain ⟨d, hd, hd0⟩ := List.any_eq_true.mp hc
    exact h6 ⟨d, hd, of_decide_eq_true hd0⟩
  rw [if_neg h6b]
  simp only [extractImage_ok h6', except_bind_ok]
  by_cases h7 : ∃ w ∈ ws, w = 0
  · have h7b : (ws.any fun w => decide (w = 0)) = true := by
      obtain ⟨w, hw, hw0⟩ := h7
      exact List.any_eq_true.mpr ⟨w, hw, decide_eq_true hw0⟩
    rw [checkWindowNonzero_err h7, if_pos h7b]
    rfl
  have h7' : ∀ w ∈ ws, w ≠ 0 := fun w hw hw0 => h7 ⟨w, hw, hw0⟩
  have h7b : ¬ ((ws.any fun w => decide (w = 0)) = true) := by
    intro hc
    obtain ⟨w, hw, hw0⟩ := List.any_eq_true.mp hc
    exact h7 ⟨w, hw, of_decide_eq_true hw0⟩
  rw [if_neg h7b]
  simp only [checkWindowNonzero_ok h7', except_bind_ok]
  by_cases h8 : ∃ p ∈ ws.zip (sh.drop 2), p.2 < p.1
  · have h8b : ((ws.zip (sh.drop 2)).any fun p => decide (p.2 < p.1)) = true := by
      obtain ⟨p, hp, hplt⟩ := h8
      exact List.any_eq_true.mpr ⟨p, hp, decide_eq_true hplt⟩
    rw [checkWindowFits_err h8, if_pos h8b]
    rfl
  have h8' : ∀ p ∈ ws.zip (sh.drop 2), ¬ p.2 < p.1 := fun p hp hplt => h8 ⟨p, hp, hplt⟩
  have h8b : ¬ (((ws.zip (sh.drop 2)).any fun p => decide (p.2 < p.1)) = true) := by
    intro hc
    obtain ⟨p, hp, hplt⟩ := List.any_eq_true.mp hc
    exact h8 ⟨p, hp, of_decide_eq_true hplt⟩
  rw [if_neg h8b]
  simp only [checkWindowFits_ok h8', except_bind_ok]
  by_cases h9 : ∃ s ∈ ss, s = 0
  · have h9b : (ss.any fun s => decide (s = 0)) = true := by
      obtain ⟨s, hs, hs0⟩ := h9
      exact List.any_eq_true.mpr ⟨s, hs, decide_eq_true hs0⟩
    have hlen : (sh.drop 2).length = ss.length := by
      rw [List.length_drop]
      omega
    have hlen2 : ws.length = ss.length := by omega
    rw [computeOutputImage_err _ _ _ hlen hlen2 h9, if_pos h9b]
    rfl
  have h9' : ∀ s ∈ ss, s ≠ 0 := fun s hs hs0 => h9 ⟨s, hs, hs0⟩
  have h9b : ¬ ((ss.any fun s => decide (s = 0)) = true) := by
    intro hc
    obtain ⟨s, hs, hs0⟩ := List.any_eq_true.mp hc
    exact h9 ⟨s, hs, of_decide_eq_true hs0⟩
  rw [if_neg h9b]
  simp only [computeOutputImage_ok _ _ _ h9', except_bind_ok]
  rfl

theorem firstViolation_none_iff (sh ws ss : List Nat) :
    firstViolation sh ws ss = none ↔ Valid sh ws ss := by
  constructor
  · intro h
    unfold firstViolation at h
    split_ifs at h with h1 h2 h3 h4 h5 h6 h7 h8 h9
    refine ⟨Nat.not_lt.mp h1, h2, h3, not_not.mp h4, not_not.mp h5, ?_, ?_, ?_, ?_⟩
    · intro d hd hd0
      exact h6 (List.any_eq_true.mpr ⟨d, hd, decide_eq_true hd0⟩)
    · intro w hw hw0
      exact h7 (List.any_eq_true.mpr ⟨w, hw, decide_eq_true hw0⟩)
    · intro p hp
      by_contra hlt
      exact h8 (List.any_eq_true.mpr ⟨p, hp, decide_eq_true (Nat.lt_of_not_le hlt)⟩)
    · intro s hs hs0
      exact h9 (List.any_eq_true.mpr ⟨s, hs, decide_eq_true hs0⟩)
  · rintro ⟨h1, h2, h3, h4, h5, h6, h7, h8, h9⟩
    unfold firstViolation
    rw [if_neg (Nat.not_lt.mpr h1), if_neg h2, if_neg h3,
      if_neg (not_not_intro h4), if_neg (not_not_intro h5)]
    rw [if_neg ?_, if_neg ?_, if_neg ?_, if_neg ?_]
    · intro hc
      obtain ⟨s, hs, hs0⟩ := List.any_eq_true.mp hc
      exact h9 s hs (of_decide_eq_true hs0)
    · intro hc
      obtain ⟨p, hp, hplt⟩ := List.any_eq_true.mp hc
      exact absurd (h8 p hp) (Nat.not_le.mpr (of_decide_eq_true hplt))
    · intro hc
      obtain ⟨w, hw, hw0⟩ := List.any_eq_true.mp hc
      exact h7 w hw (of_decide_eq_true hw0)
    · intro hc
      obtain ⟨d, hd, hd0⟩ := List.any_eq_true.mp hc
      exact h6 d hd (of_decide_eq_true hd0)

theorem constructCore_error_iff (arg : Node) (et : Nat) (sh ws ss : List Nat)
    (m : String) :
    constructCore arg et sh ws ss = Except.error m ↔
      firstViolation sh ws ss = some m := by
  rw [constructCore_eq]
  cases hfv : firstViolation sh ws ss <;> simp

theorem constructCore_ok_iff (arg : Node) (et : Nat) (sh ws ss : List Nat)
    (mp : MaxPool) :
    constructCore arg et sh ws ss = Except.ok mp ↔
      (Valid sh ws ss ∧ mp = builtPool arg et sh ws ss) := by
  rw [constructCore_eq]
  cases hfv : firstViolation sh ws ss with
  | none =>
    have hv := (firstViolation_none_iff sh ws ss).mp hfv
    simp [hv, eq_comm]
  | some m =>
    have hv : ¬ Valid sh ws ss := by
      intro hval
      rw [(firstViolation_none_iff sh ws ss).mpr hval] at hfv
      cases hfv
    simp [hv]

theorem construct_ok_inv {arg : Node} {ws ss : List Nat} {mp : MaxPool}
    (h : MaxPool.construct arg ws ss = Except.ok mp) :
    ∃ et sh rest, arg.outputs = (et, sh) :: rest ∧ Valid sh ws ss ∧
      mp = builtPool arg et sh ws ss := by
  unfold MaxPool.construct at h
  cases ho : arg.outputs with
  | nil => rw [ho] at h; cases h
  | cons p rest =>
    rw [ho] at h
    obtain ⟨et, sh⟩ := p
    obtain ⟨hv, hmp⟩ := (constructCore_ok_iff arg et sh ws ss mp).mp h
    exact ⟨et, sh, rest, rfl, hv, hmp⟩

theorem construct_eq_core {arg : Node} {et : Nat} {sh : List Nat}
    {rest : List (Nat × List Nat)} (ho : arg.outputs = (et, sh) :: rest)
    (ws ss : List Nat) :
    MaxPool.construct arg ws ss = constructCore arg et sh ws ss := by
  unfold MaxPool.construct
  rw [ho]

theorem outputDims_length : ∀ (ds ws ss : List Nat),
    ws.length = ds.length → ss.length = ds.length →
    (outputDims ds ws ss).length = ds.length := by
  intro ds
  induction ds with
  | nil => intro ws ss h1 h2; cases ws <;> cases ss <;> simp_all [outputDims]
  | cons d ds ih =>
    intro ws ss h1 h2
    cases ws with
    | nil => cases h1
    | cons w ws =>
      cases ss with
      | nil => cases h2
      | cons s ss =>
        simp only [outputDims, List.length_cons]
        rw [ih ws ss (by simpa using h1) (by simpa using h2)]

theorem outputDims_getD : ∀ (ds ws ss : List Nat) (i : Nat),
    i < ds.length → ws.length = ds.length → ss.length = ds.length →
    (outputDims ds ws ss).getD i 0 =
      ceil_div (ds.getD i 0 - ws.getD i 0 + 1) (ss.getD i 0) := by
  intro ds
  induction ds with
  | nil => intro ws ss i hi _ _; cases hi
  | cons d ds ih =>
    intro ws ss i hi h1 h2
    cases ws with
    | nil => cases h1
    | cons w ws =>
      cases ss with
      | nil => cases h2
      | cons s ss =>
        cases i with
        | zero => rfl
        | succ i =>
          simp only [outputDims, List.getD_cons_succ]
          exact ih ws ss i (by simpa using hi) (by simpa using h1) (by simpa using h2)

theorem outputDims_pos : ∀ (ds ws ss : List Nat), (∀ s ∈ ss, s ≠ 0) →
    ∀ x ∈ outputDims ds ws ss, 1 ≤ x := by
  intro ds
  induction ds with
  | nil => intro ws ss _ x hx; cases ws <;> cases ss <;> simp [outputDims] at hx
  | cons d ds ih =>
    intro ws ss h x hx
    cases ws with
    | nil => simp [outputDims] at hx
    | cons w ws =>
      cases ss with
      | nil => simp [outputDims] at hx
      | cons s ss =>
        simp only [outputDims, List.mem_cons] at hx
        rcases hx with hx | hx
        · subst hx
          have hs : 0 < s := Nat.pos_of_ne_zero (h s (List.mem_cons_self _ _))
          have : s ≤ d - w + 1 + s - 1 := by omega
          exact (Nat.one_le_div_iff hs).mpr this
        · exact ih ws ss (fun y hy => h y (List.mem_cons_of_mem _ hy)) x hx

theorem listAt_ok {l : List Nat} {i : Nat} (h : i < l.length) :
    listAt l i = Except.ok (l.getD i 0) := by
  unfold listAt
  rw [List.getD_eq_getElem?_getD]
  cases hg : l[i]? with
  | none => rw [List.getElem?_eq_none_iff] at hg; omega
  | some x => simp [List.get?_eq_getElem?, hg]

theorem listAt_err {l : List Nat} {i : Nat} (h : l.length ≤ i) :
    listAt l i = Except.error vectorAtMsg := by
  unfold listAt
  rw [List.get?_eq_getElem?, List.getElem?_eq_none h]

theorem generate_adjoints_ok (mp : MaxPool) (delta : Node)
    (hw : 2 ≤ mp.m_window_shape.length) (hs : 2 ≤ mp.m_window_movement_strides.length) :
    mp.generate_adjoints delta = Except.ok
      [{ target := mp.arg
         contribution :=
           { operand := mp.arg
             source := delta
             init_value := { etype := delta.element_type, shape := [], values := ["0"] }
             sel_f := { a_etype := delta.element_type, a_shape := []
                        b_etype := delta.element_type, b_shape := []
                        body := ScalarExpr.greater ScalarExpr.paramA ScalarExpr.paramB }
             scatter_f := { a_etype := delta.element_type, a_shape := []
                            b_etype := delta.element_type, b_shape := []
                            body := ScalarExpr.add ScalarExpr.paramA ScalarExpr.paramB }
             window_shape := [1, 1, mp.m_window_shape.getD 0 0, mp.m_window_shape.getD 1 0]
             window_strides := [1, 1, mp.m_window_movement_strides.getD 0 0,
               mp.m_window_movement_strides.getD 1 0] } }] := by
  unfold MaxPool.generate_adjoints
  rw [listAt_ok (by omega), listAt_ok (by omega), listAt_ok (by omega), listAt_ok (by omega)]
  rfl

theorem generate_adjoints_err (mp : MaxPool) (delta : Node)
    (hs : mp.m_window_movement_strides.length < 2) :
    mp.generate_adjoints delta = Except.error vectorAtMsg := by
  unfold MaxPool.generate_adjoints
  rcases Nat.lt_or_ge mp.m_window_movement_strides.length 1 with h0 | h1
  · rw [listAt_err (by omega)]
    rfl
  · rw [listAt_ok (by omega), listAt_err (by omega)]
    rfl

theorem cons_cons_shape {sh : List Nat} (h : 2 ≤ sh.length) :
    sh = sh.getD 0 0 :: sh.getD 1 0 :: sh.drop 2 := by
  cases sh with
  | nil => cases h
  | cons a t =>
    cases t with
    | nil => norm_num at h
    | cons b t => rfl

/-- Concrete single-output input node of shape [1,1,4,4]. -/
def nodeA : Node := ⟨0, [(7, [1, 1, 4, 4])]⟩

/-- Concrete single-output input node of shape [2,3,5]. -/
def nodeB : Node := ⟨1, [(0, [2, 3, 5])]⟩

/-- Concrete single-output input node of shape [1,0,0]. -/
def nodeC : Node := ⟨2, [(0, [1, 0, 0])]⟩

/-- Concrete input node with two outputs, both of shape [2,3,10]. -/
def twoOutNode : Node := ⟨3, [(0, [2, 3, 10]), (0, [2, 3, 10])]⟩

/-- Concrete single-output input node of shape [2,3,10]. -/
def oneOutNode : Node := ⟨4, [(0, [2, 3, 10])]⟩

/-- C1: for every construction of a MaxPool node from an input of rank at least 3
whose batch size, channel count, every input spatial dimension, every window
dimension and every stride are positive, with window and stride ranks equal to
the spatial-axis count and each window dimension at most the corresponding input
dimension, construction succeeds; the recorded output shape is
[batch_size, channel_count] followed per spatial axis by
ceil_div(input_dim[i] - window_dim[i] + 1, stride[i]), and the output rank
equals the input rank. -/
theorem C1_construction_output_shape (arg : Node) (et : Nat) (sh ws ss : List Nat)
    (hrank : 3 ≤ sh.length)
    (hbatch : 0 < sh.getD 0 0) (hchan : 0 < sh.getD 1 0)
    (hwr : ws.length = sh.length - 2) (hsr : ss.length = sh.length - 2)
    (hdim : ∀ d ∈ sh.drop 2, 0 < d) (hwin : ∀ w ∈ ws, 0 < w)
    (hfit : ∀ p ∈ ws.zip (sh.drop 2), p.1 ≤ p.2) (hstr : ∀ s ∈ ss, 0 < s) :
    ∃ mp, constructCore arg et sh ws ss = Except.ok mp ∧
      mp.output_shape = sh.getD 0 0 :: sh.getD 1 0 :: outputDims (sh.drop 2) ws ss ∧
      (∀ i < sh.length - 2,
        mp.m_output_image_shape.getD i 0 =
          ceil_div ((sh.drop 2).getD i 0 - ws.getD i 0 + 1) (ss.getD i 0)) ∧
      mp.output_shape.length = sh.length := by
  have hv : Valid sh ws ss :=
    ⟨hrank, Nat.pos_iff_ne_zero.mp hbatch, Nat.pos_iff_ne_zero.mp hchan, hwr, hsr,
     fun d hd => Nat.pos_iff_ne_zero.mp (hdim d hd),
     fun w hw => Nat.pos_iff_ne_zero.mp (hwin w hw), hfit,
     fun s hs => Nat.pos_iff_ne_zero.mp (hstr s hs)⟩
  have hdl : (sh.drop 2).length = sh.length - 2 := by
    rw [List.length_drop]
  refine ⟨builtPool arg et sh ws ss,
    (constructCore_ok_iff arg et sh ws ss _).mpr ⟨hv, rfl⟩, rfl, ?_, ?_⟩
  · intro i hi
    exact outputDims_getD (sh.drop 2) ws ss i (by omega) (by omega) (by omega)
  · show (sh.getD 0 0 :: sh.getD 1 0 :: outputDims (sh.drop 2) ws ss).length = sh.length
    rw [List.length_cons, List.length_cons,
      outputDims_length (sh.drop 2) ws ss (by omega) (by omega)]
    omega

/-- Witness for C1: the spec's own example, input shape [1,1,4,4] with window
[2,2] and strides [2,2] yields output shape [1,1,2,2]. -/
theorem C1_witness :
    ∃ mp, constructCore nodeA 7 [1, 1, 4, 4] [2, 2] [2, 2] = Except.ok mp ∧
      mp.output_shape = [1, 1, 2, 2] := by
  obtain ⟨mp, hok, hshape, _, _⟩ :=
    C1_construction_output_shape nodeA 7 [1, 1, 4, 4] [2, 2] [2, 2]
      (by decide) (by decide) (by decide) (by decide) (by decide)
      (by decide) (by decide) (by decide) (by decide)
  exact ⟨mp, hok, hshape.trans rfl⟩

/-- C2: the full constructor fails if and only if some structural invariant is
violated, and any error raised carries the message specific to an invariant
that the parameters indeed violate. -/
theorem C2_fail_iff_violation (arg : Node) (et : Nat) (sh ws ss : List Nat) :
    ((∃ mp, constructCore arg et sh ws ss = Except.ok mp) ↔ Valid sh ws ss) ∧
    (∀ m, constructCore arg et sh ws ss = Except.error m →
      messageMatches sh ws ss m) := by
  constructor
  · constructor
    · rintro ⟨mp, hmp⟩
      exact ((constructCore_ok_iff arg et sh ws ss mp).mp hmp).1
    · intro hv
      exact ⟨builtPool arg et sh ws ss,
        (constructCore_ok_iff arg et sh ws ss _).mpr ⟨hv, rfl⟩⟩
  · intro m hm
    have hfv := (constructCore_error_iff arg et sh ws ss m).mp hm
    unfold firstViolation at hfv
    unfold messageMatches
    split_ifs at hfv with h1 h2 h3 h4 h5 h6 h7 h8 h9
    · exact Or.inl ⟨(Option.some.inj hfv).symm, h1⟩
    · exact Or.inr (Or.inl ⟨(Option.some.inj hfv).symm, h2⟩)
    · exact Or.inr (Or.inr (Or.inl ⟨(Option.some.inj hfv).symm, h3⟩))
    · exact Or.inr (Or.inr (Or.inr (Or.inl ⟨(Option.some.inj hfv).symm, h4⟩)))
    · exact Or.inr (Or.inr (Or.inr (Or.inr (Or.inl
        ⟨(Option.some.inj hfv).symm, h5⟩))))
    · obtain ⟨d, hd, hd0⟩ := List.any_eq_true.mp h6
      exact Or.inr (Or.inr (Or.inr (Or.inr (Or.inr (Or.inl
        ⟨(Option.some.inj hfv).symm, d, hd, of_decide_eq_true hd0⟩)))))
    · obtain ⟨w, hw, hw0⟩ := List.any_eq_true.mp h7
      exact Or.inr (Or.inr (Or.inr (Or.inr (Or.inr (Or.inr (Or.inl
        ⟨(Option.some.inj hfv).symm, w, hw, of_decide_eq_true hw0⟩))))))
    · obtain ⟨p, hp, hplt⟩ := List.any_eq_true.mp h8
      exact Or.inr (Or.inr (Or.inr (Or.inr (Or.inr (Or.inr (Or.inr (Or.inl
        ⟨(Option.some.inj hfv).symm, p, hp, of_decide_eq_true hplt⟩)))))))
    · obtain ⟨s, hs, hs0⟩ := List.any_eq_true.mp h9
      exact Or.inr (Or.inr (Or.inr (Or.inr (Or.inr (Or.inr (Or.inr (Or.inr
        ⟨(Option.some.inj hfv).symm, s, hs, of_decide_eq_true hs0⟩)))))))

/-- Witness for C2: a valid parameter set constructs successfully, and a zero
batch size among otherwise-valid parameters yields the batch-size message,
which matches the violated invariant. -/
theorem C2_witness :
    (∃ mp, constructCore nodeB 0 [2, 3, 5] [2] [1] = Except.ok mp) ∧
    messageMatches [0, 2, 2] [1] [1] batchSizeMsg := by
  constructor
  · exact (C2_fail_iff_violation nodeB 0 [2, 3, 5] [2] [1]).1.mpr (by decide)
  · exact (C2_fail_iff_violation nodeB 0 [0, 2, 2] [1] [1]).2 batchSizeMsg rfl

/-- C3: when several invariants are violated simultaneously, the error raised
is exactly the one selected by the fixed validation order (rank, batch,
channel, window rank, stride rank, then the per-axis image-dimension, window
dimension, window-fits and stride checks). -/
theorem C3_first_violation_order (arg : Node) (et : Nat) (sh ws ss : List Nat) :
    ∀ m, constructCore arg et sh ws ss = Except.error m ↔
      firstViolation sh ws ss = some m :=
  fun m => constructCore_error_iff arg et sh ws ss m

/-- Witness for C3: with a zero channel count, a window-rank mismatch and a
zero image dimension all violated at once, the channel-count error (first in
the order) is the one raised. -/
theorem C3_witness :
    constructCore nodeC 0 [1, 0, 0] [] [5] = Except.error channelCountMsg :=
  (C3_first_violation_order nodeC 0 [1, 0, 0] [] [5] channelCountMsg).mpr rfl

/-- Counterexample to C4 as stated: for an input node with two outputs, the
three-argument constructor (with the all-ones stride of matching rank)
succeeds, yet the two-argument convenience overload fails, so it does not
produce an equal node although one of the two constructions succeeds. -/
theorem C4_counterexample :
    (∃ mp, MaxPool.construct twoOutNode [3]
      (List.replicate (twoOutNode.shape.length - 2) 1) = Except.ok mp) ∧
    ∀ mp, MaxPool.constructDefault twoOutNode [3] ≠ Except.ok mp := by
  constructor
  · exact ⟨_, rfl⟩
  · intro mp h
    exact Except.noConfusion
      ((rfl : MaxPool.constructDefault twoOutNode [3] =
        Except.error oneOutputMsg).symm.trans h)

/-- C4 (amended): for every input node with exactly one output, the
two-argument convenience overload behaves exactly like the three-argument
overload applied to a stride sequence of all ones whose length is the number
of spatial axes — the same node on success and the same error otherwise. -/
theorem C4_default_strides_agree (arg : Node) (et : Nat) (sh ws : List Nat)
    (h : arg.outputs = [(et, sh)]) :
    MaxPool.constructDefault arg ws =
      MaxPool.construct arg ws (List.replicate (sh.length - 2) 1) := by
  have hds : default_strides arg =
      (if sh.length < 3 then Except.error rankMsg
       else Except.ok (List.replicate (sh.length - 2) 1)) := by
    simp [default_strides, h]
  unfold MaxPool.constructDefault
  rw [hds]
  by_cases hr : sh.length < 3
  · rw [if_pos hr, except_bind_err]
    rw [construct_eq_core h]
    unfold constructCore
    rw [if_pos hr]
  · rw [if_neg hr, except_bind_ok]

/-- Witness for C4: for the single-output node of shape [2,3,10] with window
[3], the default path equals the explicit all-ones-stride path, and both
yield the output shape [2,3,8]. -/
theorem C4_witness :
    MaxPool.constructDefault oneOutNode [3] =
      MaxPool.construct oneOutNode [3] [1] ∧
    ∃ mp, MaxPool.constructDefault oneOutNode [3] = Except.ok mp ∧
      mp.output_shape = [2, 3, 8] := by
  constructor
  · exact C4_default_strides_agree oneOutNode 0 [2, 3, 10] [3] rfl
  · exact ⟨_, rfl, rfl⟩

/-- C5: `is_functionally_identical` returns true exactly when the generic
node-level identity check passes and the seven stored/derived fields compare
equal, and it is reflexive; in particular it returns false whenever one of
those fields differs while the rest agree. -/
theorem C5_functionally_identical_iff (a b : MaxPool) :
    (a.is_functionally_identical b = true ↔
      (a.test_identical b = true ∧
       a.m_window_shape = b.m_window_shape ∧
       a.m_window_movement_strides = b.m_window_movement_strides ∧
       a.m_channel_count = b.m_channel_count ∧
       a.m_input_image_shape = b.m_input_image_shape ∧
       a.m_output_image_shape = b.m_output_image_shape ∧
       a.m_batch_size = b.m_batch_size ∧
       a.m_image_dimension_count = b.m_image_dimension_count)) ∧
    a.is_functionally_identical a = true := by
  constructor
  · unfold MaxPool.is_functionally_identical
    by_cases h : a.test_identical b <;> simp [h, and_assoc]
  · simp [MaxPool.is_functionally_identical, MaxPool.test_identical]

/-- Concrete single-output input node of shape [1,1,4,4] and element type 7. -/
def nodeD : Node := ⟨5, [(7, [1, 1, 4, 4])]⟩

/-- Concrete delta node of shape [1,1,2,2] and element type 7. -/
def nodeDdelta : Node := ⟨6, [(7, [1, 1, 2, 2])]⟩

/-- Concrete single-output input node of shape [1,1,4] (one spatial axis). -/
def nodeE : Node := ⟨7, [(3, [1, 1, 4])]⟩

/-- Concrete delta node of shape [1,1,3]. -/
def nodeEdelta : Node := ⟨8, [(3, [1, 1, 3])]⟩

/-- Concrete input node with two outputs of shape [1,1,4,4]. -/
def nodeF : Node := ⟨9, [(0, [1, 1, 4, 4]), (0, [1, 1, 4, 4])]⟩

/-- Concrete input node with two outputs of shape [2,2,2]. -/
def nodeG : Node := ⟨10, [(0, [2, 2, 2]), (0, [2, 2, 2])]⟩

/-- Concrete single-output input node of shape [3,2,7]. -/
def nodeH : Node := ⟨11, [(0, [3, 2, 7])]⟩

/-- Concrete single-output input node of shape [2,2,5,5]. -/
def nodeI : Node := ⟨12, [(2, [2, 2, 5, 5])]⟩

/-- Concrete delta node of shape [2,2,4,4]. -/
def nodeIdelta : Node := ⟨13, [(2, [2, 2, 4, 4])]⟩

/-- C6: for every validly constructed MaxPool node with at least 2 spatial
axes, generate_adjoints reads only the first two entries of window_shape and
window_movement_strides regardless of image_dimension_count, and registers
exactly one gradient contribution for the operand: a select-and-scatter node
over the operand and the delta with select function a > b, scatter function
a + b, a zero scalar constant of the delta's element type, window shape
[1, 1, window_shape[0], window_shape[1]] and strides
[1, 1, stride[0], stride[1]]. -/
theorem C6_adjoint_construction (arg : Node) (wsh sst : List Nat) (mp : MaxPool)
    (delta : Node)
    (h : MaxPool.construct arg wsh sst = Except.ok mp)
    (h2 : 2 ≤ mp.m_image_dimension_count) :
    mp.generate_adjoints delta = Except.ok
      [{ target := mp.arg
         contribution :=
           { operand := mp.arg
             source := delta
             init_value := { etype := delta.element_type, shape := [], values := ["0"] }
             sel_f := { a_etype := delta.element_type, a_shape := []
                        b_etype := delta.element_type, b_shape := []
                        body := ScalarExpr.greater ScalarExpr.paramA ScalarExpr.paramB }
             scatter_f := { a_etype := delta.element_type, a_shape := []
                            b_etype := delta.element_type, b_shape := []
                            body := ScalarExpr.add ScalarExpr.paramA ScalarExpr.paramB }
             window_shape := [1, 1, wsh.getD 0 0, wsh.getD 1 0]
             window_strides := [1, 1, sst.getD 0 0, sst.getD 1 0] } }] := by
  obtain ⟨et, sh, rest, ho, hv, hmp⟩ := construct_ok_inv h
  have hwl : wsh.length = sh.length - 2 := hv.2.2.2.1
  have hsl : sst.length = sh.length - 2 := hv.2.2.2.2.1
  have hidc : mp.m_image_dimension_count = sh.length - 2 := by rw [hmp]; rfl
  have hwshape : mp.m_window_shape = wsh := by rw [hmp]; rfl
  have hsstr : mp.m_window_movement_strides = sst := by rw [hmp]; rfl
  have hred := generate_adjoints_ok mp delta (by rw [hwshape]; omega)
    (by rw [hsstr]; omega)
  rw [hred, hwshape, hsstr]

/-- Witness for C6: a 2-spatial-axis pool over input [1,1,4,4] with window
[2,2] and strides [2,2] yields exactly one contribution of the stated form. -/
theorem C6_witness :
    ∃ mp, MaxPool.construct nodeD [2, 2] [2, 2] = Except.ok mp ∧
      mp.generate_adjoints nodeDdelta = Except.ok
        [{ target := mp.arg
           contribution :=
             { operand := mp.arg
               source := nodeDdelta
               init_value := ⟨7, [], ["0"]⟩
               sel_f := ⟨7, [], 7, [],
                 ScalarExpr.greater ScalarExpr.paramA ScalarExpr.paramB⟩
               scatter_f := ⟨7, [], 7, [],
                 ScalarExpr.add ScalarExpr.paramA ScalarExpr.paramB⟩
               window_shape := [1, 1, 2, 2]
               window_strides := [1, 1, 2, 2] } }] := by
  refine ⟨_, rfl, ?_⟩
  exact C6_adjoint_construction nodeD [2, 2] [2, 2] _ nodeDdelta rfl (by decide)

/-- C7: for every validly constructed MaxPool node whose window shape and
strides have fewer than 2 entries, generate_adjoints fails with an
out-of-range condition instead of completing normally. -/
theorem C7_adjoint_out_of_range (arg : Node) (wsh sst : List Nat) (mp : MaxPool)
    (delta : Node)
    (h : MaxPool.construct arg wsh sst = Except.ok mp)
    (h2 : mp.m_image_dimension_count < 2) :
    mp.generate_adjoints delta = Except.error vectorAtMsg := by
  obtain ⟨et, sh, rest, ho, hv, hmp⟩ := construct_ok_inv h
  have hsl : sst.length = sh.length - 2 := hv.2.2.2.2.1
  have hidc : mp.m_image_dimension_count = sh.length - 2 := by rw [hmp]; rfl
  have hsstr : mp.m_window_movement_strides = sst := by rw [hmp]; rfl
  exact generate_adjoints_err mp delta (by rw [hsstr]; omega)

/-- Witness for C7: a valid 1-spatial-axis pool (input [1,1,4], window [2],
stride [1]) makes generate_adjoints fail out of range. -/
theorem C7_witness :
    ∃ mp, MaxPool.construct nodeE [2] [1] = Except.ok mp ∧
      mp.generate_adjoints nodeEdelta = Except.error vectorAtMsg :=
  ⟨_, rfl, C7_adjoint_out_of_range nodeE [2] [1] _ nodeEdelta rfl (by decide)⟩

/-- C8: for every validly constructed MaxPool node with exactly 2 spatial
axes, the select-and-scatter node built by generate_adjoints declares an
output shape equal to the original operand's shape. -/
theorem C8_adjoint_output_shape (arg : Node) (wsh sst : List Nat) (mp : MaxPool)
    (delta : Node)
    (h : MaxPool.construct arg wsh sst = Except.ok mp)
    (h2 : mp.m_image_dimension_count = 2) :
    ∃ e, mp.generate_adjoints delta = Except.ok [e] ∧
      e.contribution.output_shape = mp.arg.shape ∧
      mp.arg.shape =
        mp.m_batch_size :: mp.m_channel_count :: mp.m_input_image_shape := by
  obtain ⟨et, sh, rest, ho, hv, hmp⟩ := construct_ok_inv h
  have hr3 : 3 ≤ sh.length := hv.1
  have hwl : wsh.length = sh.length - 2 := hv.2.2.2.1
  have hsl : sst.length = sh.length - 2 := hv.2.2.2.2.1
  have hidc : mp.m_image_dimension_count = sh.length - 2 := by rw [hmp]; rfl
  have hwshape : mp.m_window_shape = wsh := by rw [hmp]; rfl
  have hsstr : mp.m_window_movement_strides = sst := by rw [hmp]; rfl
  refine ⟨_, generate_adjoints_ok mp delta (by rw [hwshape]; omega)
    (by rw [hsstr]; omega), rfl, ?_⟩
  have harg : mp.arg = arg := by rw [hmp]; rfl
  have hshape : mp.arg.shape = sh := by
    rw [harg]
    unfold Node.shape
    rw [ho]
    rfl
  rw [hshape, hmp]
  show sh = sh.getD 0 0 :: sh.getD 1 0 :: sh.drop 2
  exact cons_cons_shape (by omega)

/-- Witness for C8: for input [2,2,5,5], window [2,2], strides [1,1], the
gradient sub-graph's declared output shape is the operand's shape
[2,2,5,5]. -/
theorem C8_witness :
    ∃ mp, MaxPool.construct nodeI [2, 2] [1, 1] = Except.ok mp ∧
      ∃ e, mp.generate_adjoints nodeIdelta = Except.ok [e] ∧
        e.contribution.output_shape = mp.arg.shape ∧
        mp.arg.shape =
          mp.m_batch_size :: mp.m_channel_count :: mp.m_input_image_shape := by
  refine ⟨_, rfl, ?_⟩
  exact C8_adjoint_output_shape nodeI [2, 2] [1, 1] _ nodeIdelta rfl (by decide)

/-- C9: an input whose output count is not exactly one makes the two-argument
convenience constructor fail with the one-output message before any rank or
shape validation; the three-argument constructor has no such check and can
succeed on a two-output node. -/
theorem C9_default_path_one_output (arg : Node) (ws : List Nat)
    (h : arg.outputs.length ≠ 1) :
    MaxPool.constructDefault arg ws = Except.error oneOutputMsg ∧
    ∃ mp, MaxPool.construct nodeF [2, 2] [1, 1] = Except.ok mp := by
  constructor
  · unfold MaxPool.constructDefault default_strides
    rw [if_pos h]
    rfl
  · exact ⟨_, rfl⟩

/-- Witness for C9: a node with two outputs and garbage-compatible window
makes the default-stride path fail with the one-output message. -/
theorem C9_witness :
    MaxPool.constructDefault nodeG [1] = Except.error oneOutputMsg :=
  (C9_default_path_one_output nodeG [1] (by decide)).1

/-- C10: every entry of the recorded output shape of a successfully
constructed MaxPool node is at least 1. -/
theorem C10_output_entries_positive (arg : Node) (et : Nat) (sh ws ss : List Nat)
    (mp : MaxPool) (h : constructCore arg et sh ws ss = Except.ok mp) :
    ∀ x ∈ mp.output_shape, 1 ≤ x := by
  obtain ⟨hv, hmp⟩ := (constructCore_ok_iff arg et sh ws ss mp).mp h
  obtain ⟨h1, h2, h3, h4, h5, h6, h7, h8, h9⟩ := hv
  subst hmp
  intro x hx
  simp only [builtPool, List.mem_cons] at hx
  rcases hx with rfl | hx
  · exact Nat.pos_of_ne_zero h2
  rcases hx with rfl | hx
  · exact Nat.pos_of_ne_zero h3
  · exact outputDims_pos _ _ _ h9 x hx

/-- Witness for C10: input [3,2,7], window [3], stride [2] constructs and
every output-shape entry is at least 1. -/
theorem C10_witness :
    ∃ mp, constructCore nodeH 0 [3, 2, 7] [3] [2] = Except.ok mp ∧
      ∀ x ∈ mp.output_shape, 1 ≤ x :=
  ⟨_, rfl, C10_output_entries_positive nodeH 0 [3, 2, 7] [3] [2] _ rfl⟩

end ngraph
